import Mathlib

/-
  Verification development for the halloy file-transfer subsystem and its
  UI/notification collaborators.

  Shallow embedding of:
    - data/src/config/file_transfer.rs   (configuration parsing and validation)
    - src/notification.rs                (notification delivery and debounce)
    - src/screen/dashboard/sidebar.rs    (sidebar state update and user-menu dot)
  plus spec-modelled components whose code is outside the given sources
  (Transfer Manager `is_empty` query, Port Allocator, Auto-Accept Policy).

  Machine integers are modelled as `Nat` with explicit bounds where they
  matter (`u16` port values).  Opaque foreign values (IP addresses, paths,
  nicknames, sounds) are modelled as `Nat` identifiers: none of the verified
  code inspects their contents, only compares or stores them.
-/

namespace Halloy

/-! ### data/src/config/file_transfer.rs -/

/-- Inclusive port range `RangeInclusive<u16>` from `bind_ports` of `Server`. -/
structure RangeInclusive where
  first : Nat
  last : Nat
deriving DecidableEq, Repr

/-- Struct `Server` config block (file_transfer.rs, lines 72-80).  Addresses are
opaque identifiers. -/
structure Server where
  public_address : Nat
  bind_address : Nat
  bind_ports : RangeInclusive
deriving DecidableEq, Repr

/-- Deserialization errors of the config model. -/
inductive DeError where
  /-- serde failure parsing a `NonZeroU16` field: value zero or out of `u16` range. -/
  | invalidPort : DeError
  /-- the custom error raised when `bind_port_last < bind_port_first`. -/
  | invalidRange : DeError
deriving DecidableEq, Repr

/-- serde deserialization of a `NonZeroU16` from an integer value: succeeds
exactly on `1..=65535`. -/
def parseNonZeroU16 (n : Nat) : Except DeError Nat :=
  if 1 ≤ n ∧ n ≤ 65535 then .ok n else .error .invalidPort

/-- Impl `Deserialize for Server` (file_transfer.rs, lines 82-114): parse the
intermediate `Data` struct (whose port fields are `NonZeroU16`), then reject
`bind_port_last < bind_port_first`, else build the inclusive range. -/
def Server.deserialize (public_address bind_address : Nat)
    (bind_port_first bind_port_last : Nat) : Except DeError Server := do
  let first ← parseNonZeroU16 bind_port_first
  let last ← parseNonZeroU16 bind_port_last
  if last < first then
    .error .invalidRange
  else
    .ok { public_address := public_address
          bind_address := bind_address
          bind_ports := { first := first, last := last } }

/-- Struct `AutoAccept` config (file_transfer.rs, lines 25-36).  Nicks and
mask patterns are opaque identifiers. -/
structure AutoAccept where
  enabled : Bool
  nicks : Option (List Nat)
  masks : Option (List Nat)
deriving DecidableEq, Repr

/-- Source `fn default_passive() -> bool` returns `true`. -/
def default_passive : Bool := true

/-- Source `fn default_timeout() -> u64` returns `60 * 5`. -/
def default_timeout : Nat := 60 * 5

/-- Source `fn default_auto_accept() -> bool` returns `false`. -/
def default_auto_accept : Bool := false

/-- Impl `Default for AutoAccept` (file_transfer.rs, lines 50-58). -/
def AutoAccept.default : AutoAccept :=
  { enabled := default_auto_accept, nicks := none, masks := none }

/-- Raw `auto_accept` table before serde defaults are applied: `none` means
the field is absent from the document. -/
structure RawAutoAccept where
  enabled : Option Bool
  nicks : Option (List Nat)
  masks : Option (List Nat)
deriving DecidableEq, Repr

/-- serde deserialization of `AutoAccept`: `enabled` defaults via
`default_auto_accept`; `nicks`/`masks` are `Option` fields with
`#[serde(default)]`, so an absent list stays `None`. -/
def AutoAccept.deserialize (raw : RawAutoAccept) : AutoAccept :=
  { enabled := raw.enabled.getD default_auto_accept
    nicks := raw.nicks
    masks := raw.masks }

/-- Struct `FileTransfer` config (file_transfer.rs, lines 8-23).  The save
directory path is an opaque identifier. -/
structure FileTransfer where
  save_directory : Option Nat
  passive : Bool
  timeout : Nat
  auto_accept : AutoAccept
  server : Option Server
deriving DecidableEq, Repr

/-- Impl `Default for FileTransfer` (file_transfer.rs, lines 38-48). -/
def FileTransfer.default : FileTransfer :=
  { save_directory := none
    passive := default_passive
    timeout := default_timeout
    auto_accept := AutoAccept.default
    server := none }

/-- Raw fields of a `server` block before validation. -/
structure RawServer where
  public_address : Nat
  bind_address : Nat
  bind_port_first : Nat
  bind_port_last : Nat
deriving DecidableEq, Repr

/-- Raw `file_transfer` table before serde defaults are applied: `none`
means the field is absent from the document. -/
structure RawFileTransfer where
  save_directory : Option Nat
  passive : Option Bool
  timeout : Option Nat
  auto_accept : Option RawAutoAccept
  server : Option RawServer
deriving DecidableEq, Repr

/-- serde deserialization of `FileTransfer`: each field takes its serde
default when absent, and a present `server` block goes through
`Server.deserialize` (whose error fails the whole parse). -/
def FileTransfer.deserialize (raw : RawFileTransfer) :
    Except DeError FileTransfer :=
  match raw.server with
  | none =>
      .ok { save_directory := raw.save_directory
            passive := raw.passive.getD default_passive
            timeout := raw.timeout.getD default_timeout
            auto_accept := (raw.auto_accept.map AutoAccept.deserialize).getD
              AutoAccept.default
            server := none }
  | some s =>
      match Server.deserialize s.public_address s.bind_address
          s.bind_port_first s.bind_port_last with
      | .error e => .error e
      | .ok srv =>
          .ok { save_directory := raw.save_directory
                passive := raw.passive.getD default_passive
                timeout := raw.timeout.getD default_timeout
                auto_accept := (raw.auto_accept.map AutoAccept.deserialize).getD
                  AutoAccept.default
                server := some srv }

/-- Success characterization of `Server.deserialize`: it returns `ok` exactly
when both ports parse as `NonZeroU16` and the range is not inverted, and then
the produced record carries the inclusive range of the two bounds. -/
theorem server_deserialize_ok_iff (pa ba first last : Nat) (s : Server) :
    Server.deserialize pa ba first last = .ok s ↔
      ((1 ≤ first ∧ first ≤ 65535) ∧ (1 ≤ last ∧ last ≤ 65535) ∧
        ¬ last < first ∧
        s = { public_address := pa, bind_address := ba,
              bind_ports := { first := first, last := last } }) := by
  unfold Server.deserialize parseNonZeroU16
  by_cases h1 : 1 ≤ first ∧ first ≤ 65535 <;>
    by_cases h2 : 1 ≤ last ∧ last ≤ 65535 <;>
      by_cases h3 : last < first <;>
        simp [h1, h2, h3, bind, Except.bind, eq_comm]

/-- Claim C1: deserializing a `server` block fails whenever
`bind_port_last < bind_port_first`, and for every pair of valid port bounds
with `bind_port_first ≤ bind_port_last` it succeeds, producing `bind_ports`
equal to the inclusive range of the two bounds — no accepted configuration
carries an inverted range. -/
theorem server_deserialize_range (pa ba first last : Nat) :
    (last < first → (Server.deserialize pa ba first last).isOk = false) ∧
    (1 ≤ first → last ≤ 65535 → first ≤ last →
      Server.deserialize pa ba first last =
        .ok { public_address := pa, bind_address := ba,
              bind_ports := { first := first, last := last } }) := by
  constructor
  · intro h
    cases hd : Server.deserialize pa ba first last with
    | error e => rfl
    | ok s =>
        rw [server_deserialize_ok_iff] at hd
        exact absurd h hd.2.2.1
  · intro hf hl hfl
    rw [server_deserialize_ok_iff]
    refine ⟨⟨hf, le_trans hfl hl⟩, ⟨le_trans hf hfl, hl⟩, Nat.not_lt.mpr hfl, rfl⟩

/-- Witness for C1 at concrete inputs: the inverted pair (10, 5) is rejected
and the ordered pair (5, 10) yields the range 5..=10. -/
theorem server_deserialize_range_witness :
    (Server.deserialize 7 9 10 5).isOk = false ∧
    Server.deserialize 7 9 5 10 =
      .ok { public_address := 7, bind_address := 9,
            bind_ports := { first := 5, last := 10 } } :=
  ⟨(server_deserialize_range 7 9 10 5).1 (by decide),
   (server_deserialize_range 7 9 5 10).2 (by decide) (by decide) (by decide)⟩

/-- Claim C4: a `server` block with `bind_port_first = 0` or
`bind_port_last = 0` is rejected, and every accepted bound lies in 1..=65535. -/
theorem server_deserialize_ports_positive (pa ba first last : Nat) :
    ((first = 0 ∨ last = 0) → (Server.deserialize pa ba first last).isOk = false) ∧
    (∀ s, Server.deserialize pa ba first last = .ok s →
      (1 ≤ s.bind_ports.first ∧ s.bind_ports.first ≤ 65535) ∧
      (1 ≤ s.bind_ports.last ∧ s.bind_ports.last ≤ 65535)) := by
  constructor
  · intro h
    cases hd : Server.deserialize pa ba first last with
    | error e => rfl
    | ok s =>
        rw [server_deserialize_ok_iff] at hd
        rcases h with h | h
        · exact absurd hd.1.1 (by omega)
        · exact absurd hd.2.1.1 (by omega)
  · intro s hd
    rw [server_deserialize_ok_iff] at hd
    rcases hd with ⟨hf, hl, _, hs⟩
    subst hs
    exact ⟨hf, hl⟩

/-- Witness for C4 at concrete inputs: a zero first port is rejected, and the
accepted block with ports (1, 65535) has both bounds in 1..=65535. -/
theorem server_deserialize_ports_positive_witness :
    (Server.deserialize 2 3 0 80).isOk = false ∧
    ((1 ≤ (1 : Nat) ∧ (1 : Nat) ≤ 65535) ∧ (1 ≤ (65535 : Nat) ∧ (65535 : Nat) ≤ 65535)) :=
  ⟨(server_deserialize_ports_positive 2 3 0 80).1 (Or.inl rfl),
   (server_deserialize_ports_positive 2 3 1 65535).2
     { public_address := 2, bind_address := 3,
       bind_ports := { first := 1, last := 65535 } } rfl⟩

/-- Field equations of a successful `FileTransfer.deserialize`: every scalar
field is the raw value with its serde default applied. -/
theorem file_transfer_deserialize_fields (raw : RawFileTransfer)
    (ft : FileTransfer) (hok : FileTransfer.deserialize raw = .ok ft) :
    ft.save_directory = raw.save_directory ∧
    ft.passive = raw.passive.getD default_passive ∧
    ft.timeout = raw.timeout.getD default_timeout ∧
    ft.auto_accept = (raw.auto_accept.map AutoAccept.deserialize).getD
      AutoAccept.default := by
  unfold FileTransfer.deserialize at hok
  split at hok
  · cases hok
    simp
  · split at hok
    · simp at hok
    · cases hok
      simp

/-- Claim C3: a configuration that omits `timeout` parses to a
`FileTransfer` with `timeout = 300`, and `FileTransfer::default()` also has
`timeout = 300`. -/
theorem file_transfer_timeout_default (raw : RawFileTransfer)
    (ft : FileTransfer) (homit : raw.timeout = none)
    (hok : FileTransfer.deserialize raw = .ok ft) :
    ft.timeout = 300 ∧ FileTransfer.default.timeout = 300 := by
  have h := (file_transfer_deserialize_fields raw ft hok).2.2.1
  rw [homit] at h
  exact ⟨h, rfl⟩

/-- Witness for C3: a concrete table with no `timeout` key parses with
`timeout = 300`. -/
theorem file_transfer_timeout_default_witness :
    ({ save_directory := some 3, passive := false, timeout := 300,
       auto_accept := AutoAccept.default, server := none } :
        FileTransfer).timeout = 300 ∧
    FileTransfer.default.timeout = 300 :=
  file_transfer_timeout_default
    { save_directory := some 3, passive := some false, timeout := none,
      auto_accept := none, server := none }
    { save_directory := some 3, passive := false, timeout := 300,
      auto_accept := AutoAccept.default, server := none }
    rfl rfl

/-- Claim C5: `nicks` and `masks` are optional — deserializing an
`auto_accept` table that omits both leaves both `None`, and the default
`AutoAccept` has `nicks = None` and `masks = None`. -/
theorem auto_accept_lists_optional (raw : RawAutoAccept)
    (hn : raw.nicks = none) (hm : raw.masks = none) :
    (AutoAccept.deserialize raw).nicks = none ∧
    (AutoAccept.deserialize raw).masks = none ∧
    AutoAccept.default.nicks = none ∧
    AutoAccept.default.masks = none := by
  simp [AutoAccept.deserialize, AutoAccept.default, hn, hm]

/-- Witness for C5: a table setting only `enabled` keeps both lists absent. -/
theorem auto_accept_lists_optional_witness :
    (AutoAccept.deserialize
        { enabled := some true, nicks := none, masks := none }).nicks = none ∧
    (AutoAccept.deserialize
        { enabled := some true, nicks := none, masks := none }).masks = none ∧
    AutoAccept.default.nicks = none ∧
    AutoAccept.default.masks = none :=
  auto_accept_lists_optional
    { enabled := some true, nicks := none, masks := none } rfl rfl

/-! ### src/screen/dashboard/sidebar.rs -/

/-- Type `window::Id`, modelled as an opaque identifier. -/
abbrev WindowId := Nat

/-- Type `pane_grid::Pane`, modelled as an opaque identifier. -/
abbrev Pane := Nat

/-- Type `buffer::Upstream`; server, channel and query names are opaque
identifiers. -/
inductive Upstream where
  | server (s : Nat)
  | channel (s c : Nat)
  | query (s q : Nat)
deriving DecidableEq, Repr

/-- The `buffer::Internal` variants the sidebar toggles. -/
inductive Internal where
  | fileTransfers
  | highlights
  | logs
deriving DecidableEq, Repr

/-- Type `Result<Config, config::Error>` carried by `ConfigReloaded`; the loaded
configuration and the error are opaque. -/
inductive ConfigResult where
  | ok (c : Nat)
  | err (e : Nat)
deriving DecidableEq, Repr

namespace Sidebar

/-- Enum `sidebar::Message` (sidebar.rs, lines 21-41). -/
inductive Message where
  | new (b : Upstream)
  | popout (b : Upstream)
  | focus (w : WindowId) (p : Pane)
  | replace (b : Upstream)
  | close (w : WindowId) (p : Pane)
  | swap (w : WindowId) (p : Pane)
  | leave (b : Upstream)
  | toggleInternalBuffer (b : Internal)
  | toggleCommandBar
  | toggleThemeEditor
  | reloadConfigFile
  | configReloaded (r : ConfigResult)
  | openReleaseWebsite
  | openDocumentation
  | openConfigFile
  | reloadComplete
  | markAsRead (b : Upstream)
  | markServerAsRead (s : Nat)
deriving DecidableEq, Repr

/-- Enum `sidebar::Event` (sidebar.rs, lines 43-61). -/
inductive Event where
  | new (b : Upstream)
  | popout (b : Upstream)
  | focus (w : WindowId) (p : Pane)
  | replace (b : Upstream)
  | close (w : WindowId) (p : Pane)
  | swap (w : WindowId) (p : Pane)
  | leave (b : Upstream)
  | toggleInternalBuffer (b : Internal)
  | toggleCommandBar
  | toggleThemeEditor
  | openReleaseWebsite
  | openDocumentation
  | openConfigFile
  | configReloaded (r : ConfigResult)
  | markAsRead (b : Upstream)
  | markServerAsRead (s : Nat)
deriving DecidableEq, Repr

end Sidebar

/-- Struct `Sidebar` state (sidebar.rs, lines 63-67). -/
structure Sidebar where
  hidden : Bool
  reloading_config : Bool
deriving DecidableEq, Repr

/-- Constructor `Sidebar::new` (sidebar.rs, lines 76-81). -/
def Sidebar.new : Sidebar := { hidden := false, reloading_config := false }

/-- Method `Sidebar::update` (sidebar.rs, lines 87-150), as a pure state
transition.  The returned `Task<Message>` values (`Config::load()` on
`ReloadConfigFile`, the delayed `ReloadComplete` after `ConfigReloaded`) are
asynchronous effects and are not part of this embedding; the state mutation
and the returned event are modelled exactly. -/
def Sidebar.update (s : Sidebar) (m : Sidebar.Message) :
    Sidebar × Option Sidebar.Event :=
  match m with
  | .new b => (s, some (.new b))
  | .popout b => (s, some (.popout b))
  | .focus w p => (s, some (.focus w p))
  | .replace b => (s, some (.replace b))
  | .close w p => (s, some (.close w p))
  | .swap w p => (s, some (.swap w p))
  | .leave b => (s, some (.leave b))
  | .toggleInternalBuffer b => (s, some (.toggleInternalBuffer b))
  | .toggleCommandBar => (s, some .toggleCommandBar)
  | .toggleThemeEditor => (s, some .toggleThemeEditor)
  | .reloadConfigFile => ({ s with reloading_config := true }, none)
  | .configReloaded r => (s, some (.configReloaded r))
  | .openReleaseWebsite => (s, some .openReleaseWebsite)
  | .reloadComplete => ({ s with reloading_config := false }, none)
  | .openDocumentation => (s, some .openDocumentation)
  | .markAsRead b => (s, some (.markAsRead b))
  | .markServerAsRead srv => (s, some (.markServerAsRead srv))
  | .openConfigFile => (s, some .openConfigFile)

/-- Modelled from the spec: the Transfer Manager (§4.5, §6) is the aggregate
root holding all transfer records and exposing an `is_empty()`-style query
to the UI/notification collaborators.  Its code is outside the given
sources, so it is modelled as the table of current transfer identities. -/
structure Manager where
  transfers : List Nat
deriving DecidableEq, Repr

/-- The Manager's `is_empty()` query: no transfer records are held. -/
def Manager.is_empty (m : Manager) : Bool := m.transfers.isEmpty

/-- The entries of the sidebar user menu (sidebar.rs, lines 559-571). -/
inductive Menu where
  | refreshConfig
  | commandBar
  | themeEditor
  | highlights
  | logs
  | fileTransfers
  | version
  | horizontalRule
  | documentation
  | openConfigFile
deriving DecidableEq, Repr

/-- Function `Menu::list` (sidebar.rs, lines 573-588). -/
def Menu.list : List Menu :=
  [.version, .horizontalRule, .commandBar, .documentation, .fileTransfers,
   .highlights, .logs, .openConfigFile, .refreshConfig, .themeEditor]

/-- Dot logic of `Sidebar::user_menu_button` (sidebar.rs, lines 159-331):
the stacked notification dot exists only when the menu list is non-empty,
and `show_notification_dot = version.is_old() || !file_transfers.is_empty()`
(lines 163-165). -/
def user_menu_notification_dot (version_is_old : Bool)
    (file_transfers : Manager) : Bool :=
  if Menu.list.isEmpty then
    false
  else
    version_is_old || !file_transfers.is_empty

/-- Claim C2 as stated is false on the code: with an empty Manager
(`is_empty()` true) but an outdated version, the user-menu notification dot
is still shown. -/
theorem user_menu_dot_counterexample :
    Manager.is_empty { transfers := [] } = true ∧
    user_menu_notification_dot true { transfers := [] } = true := by
  exact ⟨rfl, rfl⟩

/-- Claim C2 (amended): the user-menu notification dot is shown exactly when
the version is outdated or the Manager's `is_empty()` is false; in
particular, when the version is current, the dot tracks `is_empty()`
exactly. -/
theorem user_menu_dot_iff (version_is_old : Bool) (m : Manager) :
    user_menu_notification_dot version_is_old m =
      (version_is_old || !m.is_empty) ∧
    user_menu_notification_dot false m = !m.is_empty := by
  exact ⟨rfl, rfl⟩

/-- Claim C10: `Sidebar::update` changes only `reloading_config` — set to
true exactly on `ReloadConfigFile` and to false exactly on `ReloadComplete`
— and every other message leaves the whole state unchanged and returns the
corresponding event variant. -/
theorem sidebar_update_state (s : Sidebar) (m : Sidebar.Message) :
    (Sidebar.update s m).1.hidden = s.hidden ∧
    (Sidebar.update s m).1.reloading_config =
      (match m with
        | .reloadConfigFile => true
        | .reloadComplete => false
        | _ => s.reloading_config) ∧
    (Sidebar.update s m).2 =
      (match m with
        | .new b => some (.new b)
        | .popout b => some (.popout b)
        | .focus w p => some (.focus w p)
        | .replace b => some (.replace b)
        | .close w p => some (.close w p)
        | .swap w p => some (.swap w p)
        | .leave b => some (.leave b)
        | .toggleInternalBuffer b => some (.toggleInternalBuffer b)
        | .toggleCommandBar => some .toggleCommandBar
        | .toggleThemeEditor => some .toggleThemeEditor
        | .reloadConfigFile => none
        | .configReloaded r => some (.configReloaded r)
        | .openReleaseWebsite => some .openReleaseWebsite
        | .openDocumentation => some .openDocumentation
        | .openConfigFile => some .openConfigFile
        | .reloadComplete => none
        | .markAsRead b => some (.markAsRead b)
        | .markServerAsRead srv => some (.markServerAsRead srv)) := by
  cases m <;> exact ⟨rfl, rfl, rfl⟩

/-! ### src/notification.rs -/

/-- Enum `data::client::Notification`, restricted to the variants this
caller matches on; nicknames, users and channels are opaque identifiers. -/
inductive Notification where
  | connected
  | disconnected
  | reconnected
  | monitoredOnline (targets : List Nat)
  | monitoredOffline (targets : List Nat)
  | fileTransferRequest (nick : Nat)
  | directMessage (user : Nat)
  | highlight (enabled : Bool) (user : Nat) (channel : Nat)
deriving DecidableEq, Repr

/-- Struct `notification::Loaded`: whether to show a toast, an optional
sound (opaque identifier), and an optional debounce delay in milliseconds. -/
structure Loaded where
  show_toast : Bool
  sound : Option Nat
  delay : Option Nat
deriving DecidableEq, Repr

/-- Struct `config::Notifications<Sound>`: one `Loaded` entry per
notification kind consulted by `notify`. -/
structure NotificationsConfig where
  connected : Loaded
  disconnected : Loaded
  reconnected : Loaded
  monitored_online : Loaded
  monitored_offline : Loaded
  file_transfer_request : Loaded
  direct_message : Loaded
  highlight : Loaded
deriving DecidableEq, Repr

/-- Struct `Notifications` (notification.rs, lines 18-20):
`notified_times: HashMap<Notification, DateTime<Utc>>`, modelled as an
association list; timestamps are milliseconds since an arbitrary origin. -/
structure Notifications where
  notified_times : List (Notification × Int)
deriving DecidableEq, Repr

/-- Constructor `Notifications::new` (notification.rs, lines 23-27). -/
def Notifications.new : Notifications := { notified_times := [] }

/-- HashMap lookup `self.notified_times.get(notification)`. -/
def Notifications.get_time (s : Notifications) (n : Notification) :
    Option Int :=
  (s.notified_times.find? (fun e => decide (e.1 = n))).map (fun e => e.2)

/-- HashMap update `self.notified_times.insert(notification, time)`:
replaces any existing binding for the key. -/
def Notifications.insert_time (s : Notifications) (n : Notification)
    (t : Int) : Notifications :=
  { notified_times :=
      (n, t) :: s.notified_times.filter (fun e => decide (¬ e.1 = n)) }

/-- Observable outcome of one `_execute` call: whether `toast::show` ran,
which sound (if any) was passed to `audio::play`, and the updated state. -/
structure ExecuteResult where
  toast_shown : Bool
  sound_played : Option Nat
  state : Notifications
deriving DecidableEq, Repr

/-- Method `Notifications::_execute` (notification.rs, lines 120-145):
return early — no toast, no sound, state untouched — when the last delivery
of an equal notification is newer than `now` minus the configured delay
(milliseconds, default 500); otherwise show the toast when configured, play
the configured sound, and record `now` for the notification. -/
def Notifications._execute (s : Notifications) (config : Loaded)
    (n : Notification) (now : Int) : ExecuteResult :=
  let last := s.get_time n
  if last.isSome ∧ last.getD 0 > now - (config.delay.getD 500 : Nat) then
    { toast_shown := false, sound_played := none, state := s }
  else
    { toast_shown := config.show_toast, sound_played := config.sound,
      state := s.insert_time n now }

/-- Inserting a time and looking the same notification up returns it. -/
theorem get_time_insert (s : Notifications) (n : Notification) (t : Int) :
    (s.insert_time n t).get_time n = some t := by
  simp [Notifications.insert_time, Notifications.get_time, List.find?]

/-- Claim C8: when a notification equal to `n` was recorded at `t0` and a
second delivery attempt happens before `t0` plus the configured delay
(default 500 ms), `_execute` shows no toast, plays no sound, and leaves the
state unchanged; otherwise the toast is shown iff `show_toast` is set, the
configured sound is played, and the current time is recorded for `n`. -/
theorem execute_debounce (s : Notifications) (config : Loaded)
    (n : Notification) (t0 now : Int)
    (hlast : s.get_time n = some t0) :
    (now < t0 + (config.delay.getD 500 : Nat) →
      Notifications._execute s config n now =
        { toast_shown := false, sound_played := none, state := s }) ∧
    (t0 + (config.delay.getD 500 : Nat) ≤ now →
      (Notifications._execute s config n now).toast_shown =
          config.show_toast ∧
      (Notifications._execute s config n now).sound_played = config.sound ∧
      (Notifications._execute s config n now).state.get_time n =
          some now) := by
  constructor
  · intro h
    unfold Notifications._execute
    rw [if_pos]
    simp [hlast]
    omega
  · intro h
    unfold Notifications._execute
    rw [if_neg]
    · exact ⟨rfl, rfl, get_time_insert s n now⟩
    · simp [hlast]
      omega

/-- Witness for C8: with the default delay, a repeat at 100 ms after a
delivery at 0 ms is suppressed, and a repeat at 600 ms goes through and
re-records the time. -/
theorem execute_debounce_witness :
    (Notifications._execute { notified_times := [(.connected, 0)] }
        { show_toast := true, sound := some 4, delay := none } .connected 100 =
      { toast_shown := false, sound_played := none,
        state := { notified_times := [(.connected, 0)] } }) ∧
    ((Notifications._execute { notified_times := [(.connected, 0)] }
        { show_toast := true, sound := some 4, delay := none }
        .connected 600).toast_shown = true ∧
     (Notifications._execute { notified_times := [(.connected, 0)] }
        { show_toast := true, sound := some 4, delay := none }
        .connected 600).sound_played = some 4 ∧
     (Notifications._execute { notified_times := [(.connected, 0)] }
        { show_toast := true, sound := some 4, delay := none }
        .connected 600).state.get_time .connected = some 600) :=
  ⟨(execute_debounce { notified_times := [(.connected, 0)] }
      { show_toast := true, sound := some 4, delay := none }
      .connected 0 100 rfl).1 (by decide),
   (execute_debounce { notified_times := [(.connected, 0)] }
      { show_toast := true, sound := some 4, delay := none }
      .connected 0 600 rfl).2 (by decide)⟩

/-- Which field of `config::Notifications` a delivery attempt consulted. -/
inductive ConfigEntry where
  | connected
  | disconnected
  | reconnected
  | monitoredOnline
  | monitoredOffline
  | fileTransferRequest
  | directMessage
  | highlight
deriving DecidableEq, Repr

/-- One `_execute` call made by `notify`: the config entry consulted and the
observable outcome. -/
structure DeliveryAttempt where
  entry : ConfigEntry
  toast_shown : Bool
  sound_played : Option Nat
deriving DecidableEq, Repr

/-- Helper threading the `Notifications` state through one `_execute` call. -/
def execStep (s : Notifications) (entry : ConfigEntry) (cfg : Loaded)
    (n : Notification) (now : Int) : DeliveryAttempt × Notifications :=
  ({ entry := entry,
     toast_shown := (Notifications._execute s cfg n now).toast_shown,
     sound_played := (Notifications._execute s cfg n now).sound_played },
   (Notifications._execute s cfg n now).state)

/-- Method `Notifications::notify` (notification.rs, lines 29-118): the six
server-scoped variants are dispatched only inside `if let Some(server)`
(one `_execute` per monitored target, keyed by the whole notification);
afterwards `DirectMessage` is dispatched unconditionally and `Highlight`
exactly when its `enabled` flag is set, regardless of `server`.  Returns
the ordered list of delivery attempts and the final state. -/
def Notifications.notify (s : Notifications) (config : NotificationsConfig)
    (n : Notification) (server : Option Nat) (now : Int) :
    List DeliveryAttempt × Notifications :=
  let first :=
    match server with
    | none => (([] : List DeliveryAttempt), s)
    | some _ =>
        match n with
        | .connected =>
            let r := execStep s .connected config.connected n now
            ([r.1], r.2)
        | .disconnected =>
            let r := execStep s .disconnected config.disconnected n now
            ([r.1], r.2)
        | .reconnected =>
            let r := execStep s .reconnected config.reconnected n now
            ([r.1], r.2)
        | .monitoredOnline targets =>
            targets.foldl
              (fun acc _t =>
                let r := execStep acc.2 .monitoredOnline
                  config.monitored_online n now
                (acc.1 ++ [r.1], r.2))
              (([] : List DeliveryAttempt), s)
        | .monitoredOffline targets =>
            targets.foldl
              (fun acc _t =>
                let r := execStep acc.2 .monitoredOffline
                  config.monitored_offline n now
                (acc.1 ++ [r.1], r.2))
              (([] : List DeliveryAttempt), s)
        | .fileTransferRequest _ =>
            let r := execStep s .fileTransferRequest
              config.file_transfer_request n now
            ([r.1], r.2)
        | _ => (([] : List DeliveryAttempt), s)
  let second :=
    match n with
    | .directMessage _ =>
        let r := execStep first.2 .directMessage config.direct_message n now
        ([r.1], r.2)
    | .highlight enabled _ _ =>
        if enabled then
          let r := execStep first.2 .highlight config.highlight n now
          ([r.1], r.2)
        else (([] : List DeliveryAttempt), first.2)
    | _ => (([] : List DeliveryAttempt), first.2)
  (first.1 ++ second.1, second.2)

/-- The notification variants dispatched only under `Some(server)`. -/
def Notification.isServerScoped : Notification → Bool
  | .connected => true
  | .disconnected => true
  | .reconnected => true
  | .monitoredOnline _ => true
  | .monitoredOffline _ => true
  | .fileTransferRequest _ => true
  | .directMessage _ => false
  | .highlight _ _ _ => false

/-- Claim C9: `notify` dispatches the server-scoped variants only when
`server` is `Some` — with `server = None` they produce no delivery attempt
at all (hence no toast and no sound) and leave the state untouched — while
`DirectMessage` yields exactly one delivery attempt against the
`direct_message` entry for any `server`, and `Highlight` yields exactly one
attempt against the `highlight` entry iff its `enabled` flag is true. -/
theorem notify_server_scoping (s : Notifications)
    (config : NotificationsConfig) (now : Int) :
    (∀ n, n.isServerScoped = true →
      Notifications.notify s config n none now = ([], s)) ∧
    (∀ u server,
      (Notifications.notify s config (.directMessage u) server now).1.map
        (fun a => a.entry) = [.directMessage]) ∧
    (∀ en u ch server,
      (Notifications.notify s config (.highlight en u ch) server now).1.map
        (fun a => a.entry) = if en then [.highlight] else []) := by
  refine ⟨?_, ?_, ?_⟩
  · intro n h
    cases n <;> simp_all [Notifications.notify, Notification.isServerScoped]
  · intro u server
    cases server <;> simp [Notifications.notify, execStep]
  · intro en u ch server
    cases server <;> cases en <;> simp [Notifications.notify, execStep]

/-- Witness for C9: a `Connected` notification with `server = None` makes no
delivery attempt, and `DirectMessage` / enabled `Highlight` each make one. -/
theorem notify_server_scoping_witness :
    Notifications.notify Notifications.new
        { connected := { show_toast := true, sound := none, delay := none },
          disconnected := { show_toast := true, sound := none, delay := none },
          reconnected := { show_toast := true, sound := none, delay := none },
          monitored_online :=
            { show_toast := true, sound := none, delay := none },
          monitored_offline :=
            { show_toast := true, sound := none, delay := none },
          file_transfer_request :=
            { show_toast := true, sound := none, delay := none },
          direct_message :=
            { show_toast := true, sound := none, delay := none },
          highlight := { show_toast := true, sound := none, delay := none } }
        .connected none 0 = ([], Notifications.new) :=
  (notify_server_scoping Notifications.new
      { connected := { show_toast := true, sound := none, delay := none },
        disconnected := { show_toast := true, sound := none, delay := none },
        reconnected := { show_toast := true, sound := none, delay := none },
        monitored_online :=
          { show_toast := true, sound := none, delay := none },
        monitored_offline :=
          { show_toast := true, sound := none, delay := none },
        file_transfer_request :=
          { show_toast := true, sound := none, delay := none },
        direct_message :=
          { show_toast := true, sound := none, delay := none },
        highlight := { show_toast := true, sound := none, delay := none } }
      0).1 .connected rfl

/-! ### Spec-modelled transfer components (code outside the given sources) -/

/-- Outcome of the Auto-Accept Policy. -/
inductive Decision where
  | allow
  | deny
deriving DecidableEq, Repr

/-- Modelled from the spec: the Auto-Accept Policy (§4.4) — whose code is
outside the given sources — is a pure function of the inbound offer's
sender nick and full hostmask and the configured rule set.  `Allow`
requires the rules enabled AND a configured default save directory AND a
nick-list or mask-list match; an absent list never matches.  The nick and
mask matching predicates (exact equality per collation, full-string regex
search) are abstract parameters. -/
def autoAcceptPolicy (rules : AutoAccept) (save_directory : Option Nat)
    (nickMatch : Nat → List Nat → Bool)
    (maskMatch : Nat → List Nat → Bool)
    (nick hostmask : Nat) : Decision :=
  if rules.enabled
      && save_directory.isSome
      && ((match rules.nicks with
            | some l => nickMatch nick l
            | none => false)
          || (match rules.masks with
                | some l => maskMatch hostmask l
                | none => false)) then
    .allow
  else
    .deny

/-- Claim C7: with `enabled = true` but both the nick list and the mask
list absent, the Auto-Accept Policy denies every inbound offer, whatever
the save directory, the matching predicates, or the offer's sender. -/
theorem auto_accept_absent_lists_deny (save_directory : Option Nat)
    (nickMatch maskMatch : Nat → List Nat → Bool) (nick hostmask : Nat) :
    autoAcceptPolicy { enabled := true, nicks := none, masks := none }
      save_directory nickMatch maskMatch nick hostmask = .deny := by
  simp [autoAcceptPolicy]

/-- Errors of the Port Allocator. -/
inductive LeaseError where
  | noPortAvailable
deriving DecidableEq, Repr

/-- Modelled from the spec: the Port Allocator (§4.2, §5) — whose code is
outside the given sources — tracks which ports of the configured inclusive
range are currently leased.  The spec mandates atomic lease acquisition
(two concurrent `lease` calls must never return the same port), so
concurrent requests are modelled as a serialized sequence of atomic state
transitions. -/
structure Allocator where
  range_first : Nat
  range_last : Nat
  leased : List Nat
deriving DecidableEq, Repr

/-- Operation `lease`: return the lowest unleased port of the inclusive
range, or fail with `NoPortAvailable` when every port of the range is
leased. -/
def Allocator.lease (a : Allocator) :
    Except LeaseError (Nat × Allocator) :=
  match (List.range' a.range_first
      (a.range_last + 1 - a.range_first)).find?
      (fun p => !a.leased.contains p) with
  | some p => .ok (p, { a with leased := p :: a.leased })
  | none => .error .noPortAvailable

/-- Operation `release(port)`: idempotent removal of a lease. -/
def Allocator.release (a : Allocator) (p : Nat) : Allocator :=
  { a with leased := a.leased.filter (fun q => !(q == p)) }

/-- N successive atomic lease requests: the granted ports in order and the
final allocator state; stops early once the range is exhausted. -/
def Allocator.leaseN (a : Allocator) : Nat → List Nat × Allocator
  | 0 => ([], a)
  | n + 1 =>
      match a.lease with
      | .ok r => (r.1 :: (r.2.leaseN n).1, (r.2.leaseN n).2)
      | .error _ => ([], a)

/-- Inversion of a successful `lease`: the granted port was free, and the
new state records it on top of the old leases. -/
theorem lease_ok_inv (a : Allocator) (p : Nat) (a2 : Allocator)
    (h : a.lease = .ok (p, a2)) :
    p ∉ a.leased ∧ a2.leased = p :: a.leased := by
  unfold Allocator.lease at h
  split at h
  · next q hq =>
      cases h
      refine ⟨?_, rfl⟩
      have hfind := List.find?_some hq
      simpa using hfind
  · cases h

/-- Across any number of serialized lease requests, the granted ports are
pairwise distinct and none of them was already leased at the start. -/
theorem leaseN_nodup_fresh (n : Nat) : ∀ a : Allocator,
    (a.leaseN n).1.Nodup ∧ ∀ q ∈ (a.leaseN n).1, q ∉ a.leased := by
  induction n with
  | zero => intro a; simp [Allocator.leaseN]
  | succ n ih =>
      intro a
      unfold Allocator.leaseN
      split
      · next r hr =>
          have hp := lease_ok_inv a r.1 r.2 (by rw [hr])
          have ih2 := ih r.2
          constructor
          · refine List.nodup_cons.mpr ⟨?_, ih2.1⟩
            intro hmem
            have hfree := ih2.2 r.1 hmem
            rw [hp.2] at hfree
            exact hfree (List.mem_cons_self r.1 a.leased)
          · intro q hq
            rcases List.mem_cons.mp hq with h | h
            · subst h; exact hp.1
            · have hfree := ih2.2 q h
              rw [hp.2] at hfree
              intro hmem
              exact hfree (List.mem_cons_of_mem _ hmem)
      · next => simp

/-- When every port of a nonempty range is already leased, `lease` fails
with `NoPortAvailable`. -/
theorem lease_exhausted (a : Allocator)
    (h : ∀ p, a.range_first ≤ p → p ≤ a.range_last → p ∈ a.leased) :
    a.lease = .error .noPortAvailable := by
  unfold Allocator.lease
  have hf : (List.range' a.range_first
      (a.range_last + 1 - a.range_first)).find?
      (fun p => !a.leased.contains p) = none := by
    rw [List.find?_eq_none]
    intro p hp
    rw [List.mem_range'_1] at hp
    have hmem := h p hp.1 (by omega)
    simpa using hmem
  rw [hf]

/-- Claim C6: for every valid range (`first ≤ last`), serialized atomic
lease requests never grant the same port twice — across N requests the
granted ports are pairwise distinct and disjoint from the initially leased
ports — and a request made when every port of the range is leased fails
with `NoPortAvailable`. -/
theorem allocator_no_double_lease (a : Allocator) (n : Nat)
    (_hrange : a.range_first ≤ a.range_last) :
    (a.leaseN n).1.Nodup ∧
    (∀ q ∈ (a.leaseN n).1, q ∉ a.leased) ∧
    ((∀ p, a.range_first ≤ p → p ≤ a.range_last → p ∈ a.leased) →
      a.lease = .error .noPortAvailable) :=
  ⟨(leaseN_nodup_fresh n a).1, (leaseN_nodup_fresh n a).2,
   lease_exhausted a⟩

/-- Witness for C6: on the range 1..=3, five requests from a fresh
allocator grant pairwise-distinct fresh ports, and with all three ports
leased the next request fails with `NoPortAvailable`. -/
theorem allocator_no_double_lease_witness :
    ((({ range_first := 1, range_last := 3, leased := [] } :
        Allocator).leaseN 5).1.Nodup ∧
      ∀ q ∈ (({ range_first := 1, range_last := 3, leased := [] } :
        Allocator).leaseN 5).1,
        q ∉ ({ range_first := 1, range_last := 3, leased := [] } :
          Allocator).leased) ∧
    ({ range_first := 1, range_last := 3, leased := [2, 1, 3] } :
        Allocator).lease = .error .noPortAvailable := by
  have h1 := allocator_no_double_lease
    { range_first := 1, range_last := 3, leased := [] } 5 (by decide)
  have h2 := allocator_no_double_lease
    { range_first := 1, range_last := 3, leased := [2, 1, 3] } 0 (by decide)
  refine ⟨⟨h1.1, h1.2.1⟩, h2.2.2 ?_⟩
  intro p hp1 hp2
  have hp1r : 1 ≤ p := hp1
  have hp2r : p ≤ 3 := hp2
  have : p = 1 ∨ p = 2 ∨ p = 3 := by omega
  rcases this with h | h | h <;> subst h <;> decide

end Halloy
